import Mathlib

/-!
Shallow embedding of the `@khoativi/nestjs-rate-limit` rate-limiting engine:
the guard (`rate-limit.guard.ts`), the interceptor (`rate-limit.interceptor.ts`),
the key-derivation hash (`hash.ts`) and the metadata/option resolution they
perform.  Store state is modelled explicitly; every store access is logged so
that frame conditions (which operations ran, in which order) can be stated.
-/

namespace RateLimitLib

/- ### SHA-256 (models `hash.ts`, which delegates to node's `crypto`
   `createHash('sha256').update(value).digest('hex')`; the algorithm itself is
   FIPS 180-4 SHA-256 over the UTF-8 bytes of the input, hex-encoded). -/

/-- Word size modulus for 32-bit arithmetic. -/
def M32 : Nat := 4294967296

/-- Right-rotation of a 32-bit word by `n` places. -/
def rotr32 (n x : Nat) : Nat := x / 2 ^ n + x % 2 ^ n * 2 ^ (32 - n)

/-- Bitwise complement of a 32-bit word. -/
def not32 (x : Nat) : Nat := Nat.xor x 4294967295

/-- SHA-256 choice function. -/
def ch32 (x y z : Nat) : Nat := Nat.xor (Nat.land x y) (Nat.land (not32 x) z)

/-- SHA-256 majority function. -/
def maj32 (x y z : Nat) : Nat :=
  Nat.xor (Nat.xor (Nat.land x y) (Nat.land x z)) (Nat.land y z)

/-- SHA-256 big sigma 0. -/
def bigSigma0 (x : Nat) : Nat :=
  Nat.xor (Nat.xor (rotr32 2 x) (rotr32 13 x)) (rotr32 22 x)

/-- SHA-256 big sigma 1. -/
def bigSigma1 (x : Nat) : Nat :=
  Nat.xor (Nat.xor (rotr32 6 x) (rotr32 11 x)) (rotr32 25 x)

/-- SHA-256 small sigma 0. -/
def smallSigma0 (x : Nat) : Nat :=
  Nat.xor (Nat.xor (rotr32 7 x) (rotr32 18 x)) (x / 2 ^ 3)

/-- SHA-256 small sigma 1. -/
def smallSigma1 (x : Nat) : Nat :=
  Nat.xor (Nat.xor (rotr32 17 x) (rotr32 19 x)) (x / 2 ^ 10)

/-- The 64 SHA-256 round constants. -/
def K256 : List Nat :=
  [1116352408, 1899447441, 3049323471, 3921009573,
   961987163, 1508970993, 2453635748, 2870763221,
   3624381080, 310598401, 607225278, 1426881987,
   1925078388, 2162078206, 2614888103, 3248222580,
   3835390401, 4022224774, 264347078, 604807628,
   770255983, 1249150122, 1555081692, 1996064986,
   2554220882, 2821834349, 2952996808, 3210313671,
   3336571891, 3584528711, 113926993, 338241895,
   666307205, 773529912, 1294757372, 1396182291,
   1695183700, 1986661051, 2177026350, 2456956037,
   2730485921, 2820302411, 3259730800, 3345764771,
   3516065817, 3600352804, 4094571909, 275423344,
   430227734, 506948616, 659060556, 883997877,
   958139571, 1322822218, 1537002063, 1747873779,
   1955562222, 2024104815, 2227730452, 2361852424,
   2428436474, 2756734187, 3204031479, 3329325298]

/-- Working state of the SHA-256 compression function: eight 32-bit words. -/
structure Sha256State where
  a : Nat
  b : Nat
  c : Nat
  d : Nat
  e : Nat
  f : Nat
  g : Nat
  h : Nat
deriving DecidableEq, Repr

/-- Initial SHA-256 hash value. -/
def sha256Init : Sha256State :=
  ⟨1779033703, 3144134277, 1013904242, 2773480762,
   1359893119, 2600822924, 528734635, 1541459225⟩

/-- One SHA-256 round: combine the state with a round constant and a
schedule word. -/
def sha256Round (s : Sha256State) (k w : Nat) : Sha256State :=
  let t1 := (s.h + bigSigma1 s.e + ch32 s.e s.f s.g + k + w) % M32
  let t2 := (bigSigma0 s.a + maj32 s.a s.b s.c) % M32
  ⟨(t1 + t2) % M32, s.a, s.b, s.c, (s.d + t1) % M32, s.e, s.f, s.g⟩

/-- Extend a message-schedule array by `n` further words. -/
def extendSchedule : Nat → Array Nat → Array Nat
  | 0, arr => arr
  | n + 1, arr =>
      let t := arr.size
      let w := (smallSigma1 (arr.getD (t - 2) 0) + arr.getD (t - 7) 0 +
                smallSigma0 (arr.getD (t - 15) 0) + arr.getD (t - 16) 0) % M32
      extendSchedule n (arr.push w)

/-- Compress one 16-word block into the running hash state. -/
def sha256Block (s0 : Sha256State) (block : List Nat) : Sha256State :=
  let ws := extendSchedule 48 block.toArray
  let r := (K256.zip ws.toList).foldl (fun s kw => sha256Round s kw.1 kw.2) s0
  ⟨(s0.a + r.a) % M32, (s0.b + r.b) % M32, (s0.c + r.c) % M32,
   (s0.d + r.d) % M32, (s0.e + r.e) % M32, (s0.f + r.f) % M32,
   (s0.g + r.g) % M32, (s0.h + r.h) % M32⟩

/-- UTF-8 encoding of one character as a list of bytes. -/
def utf8Char (c : Char) : List Nat :=
  let n := c.toNat
  if n < 128 then [n]
  else if n < 2048 then [192 + n / 64, 128 + n % 64]
  else if n < 65536 then [224 + n / 4096, 128 + n / 64 % 64, 128 + n % 64]
  else [240 + n / 262144, 128 + n / 4096 % 64, 128 + n / 64 % 64, 128 + n % 64]

/-- UTF-8 encoding of a string as a list of bytes. -/
def utf8Bytes (s : String) : List Nat := (s.data.map utf8Char).flatten

/-- Big-endian 8-byte encoding of a (64-bit) natural number. -/
def lenBytes64 (n : Nat) : List Nat :=
  [n / 2 ^ 56 % 256, n / 2 ^ 48 % 256, n / 2 ^ 40 % 256, n / 2 ^ 32 % 256,
   n / 2 ^ 24 % 256, n / 2 ^ 16 % 256, n / 2 ^ 8 % 256, n % 256]

/-- SHA-256 padding: append 128, zero bytes to 56 mod 64, then the bit
length as 8 big-endian bytes. -/
def sha256Pad (msg : List Nat) : List Nat :=
  let z := (120 - (msg.length + 1) % 64) % 64
  msg ++ [128] ++ List.replicate z 0 ++ lenBytes64 (8 * msg.length)

/-- Group a byte list into big-endian 32-bit words. -/
def bytesToWords : List Nat → List Nat
  | b0 :: b1 :: b2 :: b3 :: rest =>
      (((b0 * 256 + b1) * 256 + b2) * 256 + b3) :: bytesToWords rest
  | _ => []

/-- Split a word list into 16-word blocks, with explicit fuel. -/
def splitBlocks : Nat → List Nat → List (List Nat)
  | 0, _ => []
  | n + 1, l => l.take 16 :: splitBlocks n (l.drop 16)

/-- Hash digest over a byte message: pad, split into blocks, compress. -/
def sha256Bytes (msg : List Nat) : Sha256State :=
  let ws := bytesToWords (sha256Pad msg)
  (splitBlocks (ws.length / 16) ws).foldl sha256Block sha256Init

/-- Lower-case hexadecimal digit for a nibble. -/
def hexDigit (n : Nat) : Char :=
  if n < 10 then Char.ofNat (48 + n) else Char.ofNat (87 + n)

/-- Lower-case 8-hex-digit rendering of a 32-bit word. -/
def hexWord (w : Nat) : String :=
  String.mk ((List.range 8).map fun i => hexDigit (w / 2 ^ (4 * (7 - i)) % 16))

/-- Model of `sha256` from `hash.ts`: the hex-encoded SHA-256 digest of the
UTF-8 bytes of the input string. -/
def sha256 (value : String) : String :=
  let s := sha256Bytes (utf8Bytes value)
  hexWord s.a ++ hexWord s.b ++ hexWord s.c ++ hexWord s.d ++
  hexWord s.e ++ hexWord s.f ++ hexWord s.g ++ hexWord s.h

/-- Sanity check of the SHA-256 model against the FIPS 180-4 test vector
for "abc". -/
example :
    sha256 "abc" =
      "ba7816bf8f01cfea414140de5dae2223b00361a396177a9cb410ff61f20015ad" := by
  decide

/-- Sanity check of the SHA-256 model against the empty-string vector. -/
example :
    sha256 "" =
      "e3b0c44298fc1c149afbf4c8996fb92427ae41e4649b934ca495991b7852b855" := by
  decide

/- ### Data model: options, route metadata, store (from
   `rate-limit.interface.ts`, `rate-limit.decorator.ts`, `constants.ts`). -/

/-- Per-route options attached by the `@RateLimit` decorator
(`RateLimitDecoratorOptions`): `duration` and `limit` are required,
`errorMessage` and `countAllRequests` optional. -/
structure RateLimitDecoratorOptions where
  duration : Nat
  limit : Nat
  errorMessage : Option String
  countAllRequests : Option Bool
deriving DecidableEq, Repr

/-- Global module options (`RateLimitOptions`), minus the store client which
is modelled separately as explicit state. -/
structure RateLimitOptions where
  duration : Nat
  limit : Nat
  errorMessage : Option String
  countAllRequests : Option Bool
deriving DecidableEq, Repr

/-- State of the backing key-value store (`RateLimitStore`): a counter per
key (absent keys hold no counter) and a TTL per key, where a negative value
is the sentinel for "no expiry set / key absent". -/
structure Store where
  data : String → Option Nat
  ttlOf : String → Int

/-- One operation issued to the store, in the vocabulary of the
`RateLimitStore` interface. -/
inductive StoreOp where
  | get (key : String)
  | incr (key : String)
  | expire (key : String) (seconds : Nat)
  | ttl (key : String)
deriving DecidableEq, Repr

/-- Store after writing counter value `v` under `key` (the effect of
`incr`, which creates at 0 first and then increments). -/
def Store.setVal (s : Store) (key : String) (v : Nat) : Store :=
  ⟨fun k => if k = key then some v else s.data k, s.ttlOf⟩

/-- Store after `expire key seconds`. -/
def Store.setTtl (s : Store) (key : String) (seconds : Nat) : Store :=
  ⟨s.data, fun k => if k = key then (seconds : Int) else s.ttlOf k⟩

/-- Route metadata visible through the `Reflector`: controller class name,
handler name, and the `SKIP_RATE_LIMIT` / `RATE_LIMIT_OPTIONS` metadata at
handler and class level. -/
structure RouteMeta where
  className : String
  handlerName : String
  handlerSkip : Option Bool
  classSkip : Option Bool
  handlerOptions : Option RateLimitDecoratorOptions
  classOptions : Option RateLimitDecoratorOptions
deriving DecidableEq, Repr

/- ### Metadata and option resolution (guard lines 63-81, 216-228;
   interceptor lines 52-59). -/

/-- Model of `Reflector.getAllAndOverride` over the handler/class pair: the
handler-level metadata if defined, else the class-level metadata. -/
def getAllAndOverride {α : Type} (handlerMeta classMeta : Option α) : Option α :=
  match handlerMeta with
  | some v => some v
  | none => classMeta

/-- JavaScript truthiness of a possibly-absent boolean (`if (skip)`). -/
def truthyFlag : Option Bool → Bool
  | some true => true
  | _ => false

/-- JavaScript `a?.field || b` for numeric fields: the route value unless it
is absent or falsy (0), else the global value. -/
def jsOrNat : Option Nat → Nat → Nat
  | some n, g => if n = 0 then g else n
  | none, g => g

/-- The guard's `customOptions?.countAllRequests || options.countAllRequests
|| false`: a `||` chain, so an explicit route-level `false` falls through to
the global value. -/
def resolveCountAllOr (route global : Option Bool) : Bool :=
  match route with
  | some true => true
  | _ =>
    match global with
    | some true => true
    | _ => false

/-- The interceptor's `customOptions?.countAllRequests ??
options.countAllRequests ?? false`: a `??` chain, so an explicit route-level
`false` is kept even when the global value is `true`. -/
def resolveCountAllNullish (route global : Option Bool) : Bool :=
  match route with
  | some b => b
  | none =>
    match global with
    | some b => b
    | none => false

/-- Effective per-route options: `getAllAndOverride` over handler and class
metadata, as both guard and interceptor compute them. -/
def routeOptions (meta : RouteMeta) : Option RateLimitDecoratorOptions :=
  getAllAndOverride meta.handlerOptions meta.classOptions

/-- Guard line 78: `customOptions?.limit || this.options.limit`. -/
def effectiveLimit (meta : RouteMeta) (opt : RateLimitOptions) : Nat :=
  jsOrNat ((routeOptions meta).map (·.limit)) opt.limit

/-- Guard line 79 (and the interceptor's expire argument):
`customOptions?.duration || this.options.duration`. -/
def effectiveDuration (meta : RouteMeta) (opt : RateLimitOptions) : Nat :=
  jsOrNat ((routeOptions meta).map (·.duration)) opt.duration

/-- The guard's effective `countAllRequests` (lines 80-81). -/
def guardCountAll (meta : RouteMeta) (opt : RateLimitOptions) : Bool :=
  resolveCountAllOr ((routeOptions meta).bind (·.countAllRequests))
    opt.countAllRequests

/-- The interceptor's effective `countAllRequests` (lines 58-59). -/
def interceptorCountAll (meta : RouteMeta) (opt : RateLimitOptions) : Bool :=
  resolveCountAllNullish ((routeOptions meta).bind (·.countAllRequests))
    opt.countAllRequests

/-- Guard `getTracker` (lines 202-207):
`(request.ip ?? request.headers['x-forwarded-for']) || 'unknown'`. -/
def getTracker (ip xff : Option String) : String :=
  match (match ip with | some s => some s | none => xff) with
  | some s => if s = "" then "unknown" else s
  | none => "unknown"

/-- Guard `generateRateLimitKey` (lines 183-190):
`sha256(className ++ "-" ++ handlerName ++ "-" ++ data)`. -/
def generateRateLimitKey (className handlerName data : String) : String :=
  sha256 (className ++ "-" ++ handlerName ++ "-" ++ data)

/-- Guard `getErrorMessage` (lines 216-228): handler-level metadata only
(`reflector.get(RATE_LIMIT_OPTIONS, context.getHandler())`), then
`customOptions?.errorMessage ?? options.errorMessage ?? 'Too Many Requests'`. -/
def getErrorMessage (meta : RouteMeta) (opt : RateLimitOptions) : String :=
  match meta.handlerOptions.bind (·.errorMessage) with
  | some m => m
  | none =>
    match opt.errorMessage with
    | some m => m
    | none => "Too Many Requests"

/-- HTTP status carried by `RateLimitException`
(`HttpStatus.TOO_MANY_REQUESTS`). -/
def tooManyRequestsStatus : Nat := 429

/- ### Decision Stage: `RateLimitGuard.canActivate` (guard lines 61-126). -/

/-- Result of one `canActivate` run: the allow/reject decision, the thrown
exception's message and status on reject, each response header as an
optional attribute, the key bound to `request.rateLimitTracker`, the new
store state, and the store operations issued in order. -/
structure GuardOutcome where
  allowed : Bool
  errorMessage : Option String
  errorStatus : Option Nat
  retryAfterHeader : Option Int
  limitHeader : Option Int
  remainingHeader : Option Int
  resetHeader : Option Int
  boundKey : Option String
  store : Store
  ops : List StoreOp

/-- Model of `RateLimitGuard.canActivate`: skip check, option resolution,
tracker and key computation, TTL read with negative-sentinel fixup, then the
count-all (incr, conditional expire, `>` check) or success-only (get, `>=`
check) branch, setting Retry-After on reject or the three X-RateLimit
headers on allow. -/
def canActivate (meta : RouteMeta) (opt : RateLimitOptions)
    (ip xff : Option String) (store : Store) : GuardOutcome :=
  if truthyFlag (getAllAndOverride meta.handlerSkip meta.classSkip) then
    { allowed := true, errorMessage := none, errorStatus := none,
      retryAfterHeader := none, limitHeader := none, remainingHeader := none,
      resetHeader := none, boundKey := none, store := store, ops := [] }
  else
    let limit := effectiveLimit meta opt
    let dur := effectiveDuration meta opt
    let countAll := guardCountAll meta opt
    let tracker := getTracker ip xff
    let key := generateRateLimitKey meta.className meta.handlerName tracker
    let rawTtl := store.ttlOf key
    let ttl : Int := if rawTtl < 0 then (dur : Int) else rawTtl
    if countAll then
      let newCount := (store.data key).getD 0 + 1
      let store2 :=
        if newCount = 1 then (store.setVal key newCount).setTtl key dur
        else store.setVal key newCount
      let ops :=
        [StoreOp.ttl key, StoreOp.incr key] ++
          (if newCount = 1 then [StoreOp.expire key dur] else [])
      if newCount > limit then
        { allowed := false, errorMessage := some (getErrorMessage meta opt),
          errorStatus := some tooManyRequestsStatus,
          retryAfterHeader := some ttl, limitHeader := none,
          remainingHeader := none, resetHeader := none,
          boundKey := some key, store := store2, ops := ops }
      else
        let remaining : Int := (limit : Int) - (newCount : Int)
        { allowed := true, errorMessage := none, errorStatus := none,
          retryAfterHeader := none, limitHeader := some (limit : Int),
          remainingHeader := some (if remaining < 0 then 0 else remaining),
          resetHeader := some ttl, boundKey := some key, store := store2,
          ops := ops }
    else
      let count := (store.data key).getD 0
      if count ≥ limit then
        { allowed := false, errorMessage := some (getErrorMessage meta opt),
          errorStatus := some tooManyRequestsStatus,
          retryAfterHeader := some ttl, limitHeader := none,
          remainingHeader := none, resetHeader := none,
          boundKey := some key, store := store,
          ops := [StoreOp.ttl key, StoreOp.get key] }
      else
        let remaining : Int := (limit : Int) - (count : Int)
        { allowed := true, errorMessage := none, errorStatus := none,
          retryAfterHeader := none, limitHeader := some (limit : Int),
          remainingHeader := some (if remaining < 0 then 0 else remaining),
          resetHeader := some ttl, boundKey := some key, store := store,
          ops := [StoreOp.ttl key, StoreOp.get key] }

/- ### Settlement Stage: `RateLimitInterceptor.intercept` (interceptor
   lines 51-81). -/

/-- Result of the interceptor's post-response settlement: the new store
state and the store operations issued. -/
structure SettleOutcome where
  store : Store
  ops : List StoreOp

/-- Model of the interceptor's tap callback: with `countAllRequests`
resolved via the `??` chain, increment only when that flag is false, a key
was bound (and is truthy), and `statusCode < 400`; on a post-increment value
of exactly 1, expire the key to the effective duration. -/
def interceptSettle (meta : RouteMeta) (opt : RateLimitOptions)
    (boundKey : Option String) (statusCode : Nat) (store : Store) :
    SettleOutcome :=
  let countAll := interceptorCountAll meta opt
  match boundKey with
  | none => ⟨store, []⟩
  | some key =>
    if countAll = false ∧ key ≠ "" then
      if statusCode < 400 then
        let newCount := (store.data key).getD 0 + 1
        if newCount = 1 then
          ⟨(store.setVal key newCount).setTtl key (effectiveDuration meta opt),
           [StoreOp.incr key,
            StoreOp.expire key (effectiveDuration meta opt)]⟩
        else ⟨store.setVal key newCount, [StoreOp.incr key]⟩
      else ⟨store, []⟩
    else ⟨store, []⟩

/- ### Request sequences. -/

/-- Decisions of `n` consecutive guard runs for the same route and caller,
threading the store. -/
def guardSeq (meta : RouteMeta) (opt : RateLimitOptions)
    (ip xff : Option String) : Nat → Store → List Bool
  | 0, _ => []
  | n + 1, s =>
    let o := canActivate meta opt ip xff s
    o.allowed :: guardSeq meta opt ip xff n o.store

/-- Store after settling a list of response statuses in order for one
bound key. -/
def settleMany (meta : RouteMeta) (opt : RateLimitOptions)
    (boundKey : Option String) : List Nat → Store → Store
  | [], s => s
  | st :: rest, s =>
    settleMany meta opt boundKey rest
      (interceptSettle meta opt boundKey st s).store

/- ### Derived helper notions used to state the properties. -/

/-- Limiting Key the guard computes and binds for a request
(`generateRateLimitKey` applied to the route identity and the tracker). -/
def requestKey (meta : RouteMeta) (ip xff : Option String) : String :=
  generateRateLimitKey meta.className meta.handlerName (getTracker ip xff)

/-- TTL value after the guard's negative-sentinel fixup (lines 91-94): the
raw store TTL, or the effective duration when the store reports a negative
value. -/
def fixedTtl (meta : RouteMeta) (opt : RateLimitOptions)
    (ip xff : Option String) (s : Store) : Int :=
  if s.ttlOf (requestKey meta ip xff) < 0 then
    (effectiveDuration meta opt : Int)
  else s.ttlOf (requestKey meta ip xff)

/-- The authoritative count used by the decision rule: the post-increment
value in count-all mode, the unmutated read (missing treated as 0) in
success-only mode. -/
def decisionCount (meta : RouteMeta) (opt : RateLimitOptions)
    (ip xff : Option String) (s : Store) : Nat :=
  if guardCountAll meta opt then
    (s.data (requestKey meta ip xff)).getD 0 + 1
  else (s.data (requestKey meta ip xff)).getD 0

/- ### Concrete fixtures for witnesses. -/

/-- Store with no keys and the negative "absent" TTL sentinel everywhere. -/
def emptyStore : Store := ⟨fun _ => none, fun _ => (-2 : Int)⟩

/-- Undecorated demo route on `AppController.getHello`. -/
def demoMeta : RouteMeta :=
  ⟨"AppController", "getHello", none, none, none, none⟩

/-- Global options `{ duration: 10, limit: 2, countAllRequests: true }`. -/
def demoOptionsCA : RateLimitOptions := ⟨10, 2, none, some true⟩

/-- Global options `{ duration: 10, limit: 2 }` (success-only mode). -/
def demoOptionsSO : RateLimitOptions := ⟨10, 2, none, none⟩

/- ### Basic lemmas about `canActivate`. -/

/-- On a bypassed route the guard allows, issues no store operation, binds
no key and leaves the store unchanged. -/
lemma canActivate_skip (meta : RouteMeta) (opt : RateLimitOptions)
    (ip xff : Option String) (s : Store)
    (h : truthyFlag (getAllAndOverride meta.handlerSkip meta.classSkip) = true) :
    canActivate meta opt ip xff s =
      ⟨true, none, none, none, none, none, none, none, s, []⟩ := by
  simp [canActivate, h]

/-- On a non-bypassed route the guard always binds the Limiting Key. -/
lemma canActivate_boundKey (meta : RouteMeta) (opt : RateLimitOptions)
    (ip xff : Option String) (s : Store)
    (h : truthyFlag (getAllAndOverride meta.handlerSkip meta.classSkip) = false) :
    (canActivate meta opt ip xff s).boundKey = some (requestKey meta ip xff) := by
  simp only [canActivate, h, Bool.false_eq_true, if_false, requestKey]
  split_ifs <;> rfl

/-- Full characterization of the guard in count-all mode. -/
lemma canActivate_countAll_eq (meta : RouteMeta) (opt : RateLimitOptions)
    (ip xff : Option String) (s : Store)
    (hskip :
      truthyFlag (getAllAndOverride meta.handlerSkip meta.classSkip) = false)
    (hca : guardCountAll meta opt = true) :
    canActivate meta opt ip xff s =
      (let key := requestKey meta ip xff
       let L := effectiveLimit meta opt
       let dur := effectiveDuration meta opt
       let c := (s.data key).getD 0 + 1
       let s2 :=
         if c = 1 then (s.setVal key c).setTtl key dur else s.setVal key c
       let ops :=
         [StoreOp.ttl key, StoreOp.incr key] ++
           (if c = 1 then [StoreOp.expire key dur] else [])
       if c > L then
         ⟨false, some (getErrorMessage meta opt), some tooManyRequestsStatus,
          some (fixedTtl meta opt ip xff s), none, none, none, some key, s2,
          ops⟩
       else
         ⟨true, none, none, none, some (L : Int),
          some (if (L : Int) - (c : Int) < 0 then 0 else (L : Int) - (c : Int)),
          some (fixedTtl meta opt ip xff s), some key, s2, ops⟩) := by
  simp only [canActivate, hskip, Bool.false_eq_true, if_false, hca, if_true,
    requestKey, fixedTtl]

/-- Full characterization of the guard in success-only mode. -/
lemma canActivate_successOnly_eq (meta : RouteMeta) (opt : RateLimitOptions)
    (ip xff : Option String) (s : Store)
    (hskip :
      truthyFlag (getAllAndOverride meta.handlerSkip meta.classSkip) = false)
    (hca : guardCountAll meta opt = false) :
    canActivate meta opt ip xff s =
      (let key := requestKey meta ip xff
       let L := effectiveLimit meta opt
       let c := (s.data key).getD 0
       if c ≥ L then
         ⟨false, some (getErrorMessage meta opt), some tooManyRequestsStatus,
          some (fixedTtl meta opt ip xff s), none, none, none, some key, s,
          [StoreOp.ttl key, StoreOp.get key]⟩
       else
         ⟨true, none, none, none, some (L : Int),
          some (if (L : Int) - (c : Int) < 0 then 0 else (L : Int) - (c : Int)),
          some (fixedTtl meta opt ip xff s), some key, s,
          [StoreOp.ttl key, StoreOp.get key]⟩) := by
  simp only [canActivate, hskip, Bool.false_eq_true, if_false, hca,
    requestKey, fixedTtl]

/-- In count-all mode the guard allows exactly when the post-increment
count is at most the effective limit. -/
lemma countAll_allowed (meta : RouteMeta) (opt : RateLimitOptions)
    (ip xff : Option String) (s : Store)
    (hskip :
      truthyFlag (getAllAndOverride meta.handlerSkip meta.classSkip) = false)
    (hca : guardCountAll meta opt = true) :
    (canActivate meta opt ip xff s).allowed =
      decide ((s.data (requestKey meta ip xff)).getD 0 + 1 ≤
        effectiveLimit meta opt) := by
  rw [canActivate_countAll_eq meta opt ip xff s hskip hca]
  dsimp only
  rw [apply_ite GuardOutcome.allowed]
  dsimp only
  split_ifs with h
  · exact (decide_eq_false (by omega)).symm
  · exact (decide_eq_true (by omega)).symm

/-- In count-all mode the guard's post-state counter is the incremented
value, whether the request was allowed or rejected. -/
lemma countAll_store_data (meta : RouteMeta) (opt : RateLimitOptions)
    (ip xff : Option String) (s : Store)
    (hskip :
      truthyFlag (getAllAndOverride meta.handlerSkip meta.classSkip) = false)
    (hca : guardCountAll meta opt = true) :
    (canActivate meta opt ip xff s).store.data (requestKey meta ip xff) =
      some ((s.data (requestKey meta ip xff)).getD 0 + 1) := by
  rw [canActivate_countAll_eq meta opt ip xff s hskip hca]
  dsimp only
  rw [apply_ite GuardOutcome.store]
  dsimp only
  rw [ite_self]
  split_ifs <;> simp [Store.setVal, Store.setTtl]

/-- In success-only mode the guard allows exactly when the unmutated read
(missing treated as 0) is strictly below the effective limit. -/
lemma successOnly_allowed (meta : RouteMeta) (opt : RateLimitOptions)
    (ip xff : Option String) (s : Store)
    (hskip :
      truthyFlag (getAllAndOverride meta.handlerSkip meta.classSkip) = false)
    (hca : guardCountAll meta opt = false) :
    (canActivate meta opt ip xff s).allowed =
      decide ((s.data (requestKey meta ip xff)).getD 0 <
        effectiveLimit meta opt) := by
  rw [canActivate_successOnly_eq meta opt ip xff s hskip hca]
  dsimp only
  rw [apply_ite GuardOutcome.allowed]
  dsimp only
  split_ifs with h
  · exact (decide_eq_false (by omega)).symm
  · exact (decide_eq_true (by omega)).symm

/-- In success-only mode the guard leaves the store untouched. -/
lemma successOnly_store (meta : RouteMeta) (opt : RateLimitOptions)
    (ip xff : Option String) (s : Store)
    (hskip :
      truthyFlag (getAllAndOverride meta.handlerSkip meta.classSkip) = false)
    (hca : guardCountAll meta opt = false) :
    (canActivate meta opt ip xff s).store = s := by
  rw [canActivate_successOnly_eq meta opt ip xff s hskip hca]
  dsimp only
  rw [apply_ite GuardOutcome.store]
  dsimp only
  rw [ite_self]

/-- Decisions of a count-all request sequence: with the counter currently at
`c`, the `i`-th subsequent request (0-based) is allowed exactly when
`c + i + 1 ≤ effectiveLimit`. -/
lemma guardSeq_countAll (meta : RouteMeta) (opt : RateLimitOptions)
    (ip xff : Option String)
    (hskip :
      truthyFlag (getAllAndOverride meta.handlerSkip meta.classSkip) = false)
    (hca : guardCountAll meta opt = true) :
    ∀ n (s : Store) (c : Nat),
      (s.data (requestKey meta ip xff)).getD 0 = c →
      guardSeq meta opt ip xff n s =
        (List.range n).map
          (fun i => decide (c + i + 1 ≤ effectiveLimit meta opt)) := by
  intro n
  induction n with
  | zero => intro s c hc; simp [guardSeq]
  | succ n ih =>
    intro s c hc
    have hall := countAll_allowed meta opt ip xff s hskip hca
    have hdata := countAll_store_data meta opt ip xff s hskip hca
    have htail := ih (canActivate meta opt ip xff s).store (c + 1)
      (by rw [hdata, hc]; rfl)
    rw [guardSeq, hall, hc, htail, List.range_succ_eq_map, List.map_cons,
      List.map_map]
    refine congrArg₂ _ (by norm_num) ?_
    apply List.map_congr_left
    intro i _
    have harith : c + 1 + i + 1 = c + (i + 1) + 1 := by omega
    simp [Function.comp, harith]

end RateLimitLib

namespace RateLimitClaims

open RateLimitLib

/-- C9 counterexample: the claimed precedence fails when the client IP is
present but empty — `(ip ?? xff) || 'unknown'` stops at the empty string in
the `??` step and the `||` falls to "unknown", skipping the available
forwarded-for value "1.2.3.4". -/
theorem tracker_precedence_counterexample :
    getTracker (some "") (some "1.2.3.4") = "unknown" ∧
      getTracker (some "") (some "1.2.3.4") ≠ "1.2.3.4" := by
  decide

/-- C9 (amended): the default tracker is the client IP when it is present
and non-empty; when the IP is present but empty the tracker is "unknown"
regardless of any forwarded-for value (the header is not consulted); when
the IP is absent, the tracker is the forwarded-for value if non-empty, else
"unknown"; when both are absent it is "unknown". -/
theorem tracker_precedence (xff : Option String) (s : String) (hs : s ≠ "") :
    getTracker (some s) xff = s ∧
      (∀ x : Option String, getTracker (some "") x = "unknown") ∧
      getTracker none (some s) = s ∧
      getTracker none (some "") = "unknown" ∧
      getTracker none none = "unknown" := by
  refine ⟨?_, fun x => rfl, ?_, rfl, rfl⟩ <;> simp [getTracker, hs]

/-- Witness for C9 at the concrete addresses "1.2.3.4" and "5.6.7.8". -/
theorem tracker_precedence_witness :
    ("1.2.3.4" : String) ≠ "" ∧
      (getTracker (some "1.2.3.4") (some "5.6.7.8") = "1.2.3.4" ∧
        (∀ x : Option String, getTracker (some "") x = "unknown") ∧
        getTracker none (some "1.2.3.4") = "1.2.3.4" ∧
        getTracker none (some "") = "unknown" ∧
        getTracker none none = "unknown") :=
  ⟨by decide, tracker_precedence (some "5.6.7.8") "1.2.3.4" (by decide)⟩

/-- C10: the error message is resolved from handler-level metadata only,
while limit, duration and countAllRequests are resolved from handler-level
metadata overriding class-level metadata; so with a class-level
`errorMessage` override and no handler metadata, the thrown message is the
global message (or the generic fallback), not the class-level override. -/
theorem errorMessage_ignores_class_metadata (o : RateLimitDecoratorOptions)
    (opt : RateLimitOptions) (cn hn m : String)
    (_hm : o.errorMessage = some m) :
    getErrorMessage ⟨cn, hn, none, none, none, some o⟩ opt =
        (opt.errorMessage).getD "Too Many Requests" ∧
      effectiveLimit ⟨cn, hn, none, none, none, some o⟩ opt =
        (if o.limit = 0 then opt.limit else o.limit) ∧
      effectiveDuration ⟨cn, hn, none, none, none, some o⟩ opt =
        (if o.duration = 0 then opt.duration else o.duration) ∧
      guardCountAll ⟨cn, hn, none, none, none, some o⟩ opt =
        resolveCountAllOr o.countAllRequests opt.countAllRequests ∧
      ((opt.errorMessage).getD "Too Many Requests" ≠ m →
        getErrorMessage ⟨cn, hn, none, none, none, some o⟩ opt ≠ m) := by
  have h1 : getErrorMessage ⟨cn, hn, none, none, none, some o⟩ opt =
      (opt.errorMessage).getD "Too Many Requests" := by
    cases hg : opt.errorMessage <;> simp [getErrorMessage, hg]
  refine ⟨h1, ?_, ?_, ?_, ?_⟩
  · simp [effectiveLimit, routeOptions, getAllAndOverride, jsOrNat]
  · simp [effectiveDuration, routeOptions, getAllAndOverride, jsOrNat]
  · simp [guardCountAll, routeOptions, getAllAndOverride]
  · intro hne
    rw [h1]
    exact hne

/-- Witness for C10: class metadata `{duration 5, limit 3, errorMessage
"class msg", countAllRequests false}` with global options `{duration 10,
limit 2, errorMessage "global msg"}`. -/
theorem errorMessage_ignores_class_metadata_witness :
    (⟨5, 3, some "class msg", some false⟩ :
        RateLimitDecoratorOptions).errorMessage = some "class msg" ∧
      (getErrorMessage
          ⟨"C", "h", none, none, none, some ⟨5, 3, some "class msg", some false⟩⟩
          ⟨10, 2, some "global msg", none⟩ =
          ((⟨10, 2, some "global msg", none⟩ :
            RateLimitOptions).errorMessage).getD "Too Many Requests" ∧
        effectiveLimit
          ⟨"C", "h", none, none, none, some ⟨5, 3, some "class msg", some false⟩⟩
          ⟨10, 2, some "global msg", none⟩ = (if (3 : Nat) = 0 then 2 else 3) ∧
        effectiveDuration
          ⟨"C", "h", none, none, none, some ⟨5, 3, some "class msg", some false⟩⟩
          ⟨10, 2, some "global msg", none⟩ = (if (5 : Nat) = 0 then 10 else 5) ∧
        guardCountAll
          ⟨"C", "h", none, none, none, some ⟨5, 3, some "class msg", some false⟩⟩
          ⟨10, 2, some "global msg", none⟩ =
          resolveCountAllOr (some false) none ∧
        (((⟨10, 2, some "global msg", none⟩ :
            RateLimitOptions).errorMessage).getD "Too Many Requests" ≠
            "class msg" →
          getErrorMessage
            ⟨"C", "h", none, none, none,
              some ⟨5, 3, some "class msg", some false⟩⟩
            ⟨10, 2, some "global msg", none⟩ ≠ "class msg")) :=
  ⟨rfl, errorMessage_ignores_class_metadata ⟨5, 3, some "class msg", some false⟩
    ⟨10, 2, some "global msg", none⟩ "C" "h" "class msg" rfl⟩

/-- C8: on every non-bypassed request the bound Limiting Key is the
hex-encoded SHA-256 of `className ++ "-" ++ handlerName ++ "-" ++ tracker`,
and the derivation is a deterministic function of route identity and
tracker. -/
theorem key_is_sha256_of_route_and_tracker (meta : RouteMeta)
    (opt : RateLimitOptions) (ip xff : Option String) (s : Store)
    (hskip :
      truthyFlag (getAllAndOverride meta.handlerSkip meta.classSkip) = false) :
    (canActivate meta opt ip xff s).boundKey =
        some (sha256 (meta.className ++ "-" ++ meta.handlerName ++ "-" ++
          getTracker ip xff)) ∧
      (∀ cn hn t, generateRateLimitKey cn hn t =
        sha256 (cn ++ "-" ++ hn ++ "-" ++ t)) ∧
      (∀ cn hn t cn2 hn2 t2, cn = cn2 → hn = hn2 → t = t2 →
        generateRateLimitKey cn hn t = generateRateLimitKey cn2 hn2 t2) := by
  refine ⟨?_, fun cn hn t => rfl, ?_⟩
  · rw [canActivate_boundKey meta opt ip xff s hskip]
    rfl
  · intro cn hn t cn2 hn2 t2 h1 h2 h3
    rw [h1, h2, h3]

/-- Witness for C8 on the demo route with tracker "1.2.3.4". -/
theorem key_is_sha256_of_route_and_tracker_witness :
    truthyFlag (getAllAndOverride demoMeta.handlerSkip demoMeta.classSkip) =
        false ∧
      ((canActivate demoMeta demoOptionsSO (some "1.2.3.4") none
          emptyStore).boundKey =
        some (sha256 (demoMeta.className ++ "-" ++ demoMeta.handlerName ++
          "-" ++ getTracker (some "1.2.3.4") none)) ∧
        (∀ cn hn t, generateRateLimitKey cn hn t =
          sha256 (cn ++ "-" ++ hn ++ "-" ++ t)) ∧
        (∀ cn hn t cn2 hn2 t2, cn = cn2 → hn = hn2 → t = t2 →
          generateRateLimitKey cn hn t = generateRateLimitKey cn2 hn2 t2)) :=
  ⟨rfl, key_is_sha256_of_route_and_tracker demoMeta demoOptionsSO
    (some "1.2.3.4") none emptyStore rfl⟩

/-- C1: the Decision Stage rejects exactly when the count is `>=` the
effective limit in success-only mode (count read without mutation, missing
treated as 0) and exactly when it is strictly `>` the effective limit in
count-all mode (post-increment value); consequently, in count-all mode
within one window, requests `1..L` are allowed and later requests are
rejected. -/
theorem decision_rule_and_window_sequence (meta : RouteMeta)
    (opt : RateLimitOptions) (ip xff : Option String) (s : Store) (n : Nat)
    (hskip :
      truthyFlag (getAllAndOverride meta.handlerSkip meta.classSkip) = false) :
    (guardCountAll meta opt = false →
      (canActivate meta opt ip xff s).allowed =
          decide ((s.data (requestKey meta ip xff)).getD 0 <
            effectiveLimit meta opt) ∧
        (canActivate meta opt ip xff s).store = s) ∧
    (guardCountAll meta opt = true →
      (canActivate meta opt ip xff s).allowed =
        decide ((s.data (requestKey meta ip xff)).getD 0 + 1 ≤
          effectiveLimit meta opt)) ∧
    (guardCountAll meta opt = true → s.data (requestKey meta ip xff) = none →
      guardSeq meta opt ip xff n s =
        (List.range n).map
          (fun i => decide (i + 1 ≤ effectiveLimit meta opt))) := by
  refine ⟨fun hca => ⟨successOnly_allowed meta opt ip xff s hskip hca,
    successOnly_store meta opt ip xff s hskip hca⟩,
    fun hca => countAll_allowed meta opt ip xff s hskip hca,
    fun hca hnone => ?_⟩
  have hrun := guardSeq_countAll meta opt ip xff hskip hca n s 0
    (by rw [hnone]; rfl)
  rw [hrun]
  apply List.map_congr_left
  intro i _
  simp

/-- Witness for C1: limit 2 in count-all mode, five requests from an empty
store; requests 1 and 2 are allowed, requests 3-5 rejected. -/
theorem decision_rule_and_window_sequence_witness :
    truthyFlag (getAllAndOverride demoMeta.handlerSkip demoMeta.classSkip) =
        false ∧
      guardSeq demoMeta demoOptionsCA none none 5 emptyStore =
        [true, true, false, false, false] := by
  have h := (decision_rule_and_window_sequence demoMeta demoOptionsCA none
    none emptyStore 5 rfl).2.2 rfl rfl
  refine ⟨rfl, ?_⟩
  rw [h]
  decide

/-- C5: every allowed request carries limit = effectiveLimit, remaining =
effectiveLimit minus the decision count clamped at zero, and reset = the
TTL read from the store before the count step, with a negative store TTL
replaced by the effective duration. -/
theorem allow_headers (meta : RouteMeta) (opt : RateLimitOptions)
    (ip xff : Option String) (s : Store)
    (hskip :
      truthyFlag (getAllAndOverride meta.handlerSkip meta.classSkip) = false)
    (hallow : (canActivate meta opt ip xff s).allowed = true) :
    (canActivate meta opt ip xff s).limitHeader =
        some (effectiveLimit meta opt : Int) ∧
      (canActivate meta opt ip xff s).remainingHeader =
        some (if (effectiveLimit meta opt : Int) -
              (decisionCount meta opt ip xff s : Int) < 0 then 0
          else (effectiveLimit meta opt : Int) -
            (decisionCount meta opt ip xff s : Int)) ∧
      (canActivate meta opt ip xff s).resetHeader =
        some (fixedTtl meta opt ip xff s) := by
  cases hca : guardCountAll meta opt
  · rw [canActivate_successOnly_eq meta opt ip xff s hskip hca] at hallow ⊢
    dsimp only at hallow ⊢
    rw [apply_ite GuardOutcome.allowed] at hallow
    dsimp only at hallow
    split_ifs at hallow with h
    rw [if_neg h]
    exact ⟨rfl, by simp [decisionCount, hca], rfl⟩
  · rw [canActivate_countAll_eq meta opt ip xff s hskip hca] at hallow ⊢
    dsimp only at hallow ⊢
    rw [apply_ite GuardOutcome.allowed] at hallow
    dsimp only at hallow
    split_ifs at hallow with h
    rw [if_neg h]
    exact ⟨rfl, by simp [decisionCount, hca], rfl⟩

/-- Witness for C5: success-only mode, empty store, limit 2; the allowed
request reports limit 2, remaining 2 and reset 10. -/
theorem allow_headers_witness :
    truthyFlag (getAllAndOverride demoMeta.handlerSkip demoMeta.classSkip) =
        false ∧
      (canActivate demoMeta demoOptionsSO none none emptyStore).allowed =
        true ∧
      ((canActivate demoMeta demoOptionsSO none none emptyStore).limitHeader =
        some (effectiveLimit demoMeta demoOptionsSO : Int) ∧
        (canActivate demoMeta demoOptionsSO none none
            emptyStore).remainingHeader =
          some (if (effectiveLimit demoMeta demoOptionsSO : Int) -
                (decisionCount demoMeta demoOptionsSO none none emptyStore :
                  Int) < 0 then 0
            else (effectiveLimit demoMeta demoOptionsSO : Int) -
              (decisionCount demoMeta demoOptionsSO none none emptyStore :
                Int)) ∧
        (canActivate demoMeta demoOptionsSO none none emptyStore).resetHeader =
          some (fixedTtl demoMeta demoOptionsSO none none emptyStore)) :=
  ⟨rfl, by decide,
    allow_headers demoMeta demoOptionsSO none none emptyStore rfl (by decide)⟩

/-- C6: on reject the guard sets only the Retry-After attribute (the fixed
TTL from step 4) and throws the 429 rate-limit exception carrying the
resolved message — handler-level route message, else the global message,
else "Too Many Requests"; the limit/remaining/reset attributes stay unset. -/
theorem reject_sets_only_retry_after (meta : RouteMeta)
    (opt : RateLimitOptions) (ip xff : Option String) (s : Store)
    (hskip :
      truthyFlag (getAllAndOverride meta.handlerSkip meta.classSkip) = false)
    (hrej : (canActivate meta opt ip xff s).allowed = false) :
    (canActivate meta opt ip xff s).retryAfterHeader =
        some (fixedTtl meta opt ip xff s) ∧
      (canActivate meta opt ip xff s).errorStatus =
        some tooManyRequestsStatus ∧
      tooManyRequestsStatus = 429 ∧
      (canActivate meta opt ip xff s).errorMessage =
        some ((meta.handlerOptions.bind (·.errorMessage)).getD
          ((opt.errorMessage).getD "Too Many Requests")) ∧
      (canActivate meta opt ip xff s).limitHeader = none ∧
      (canActivate meta opt ip xff s).remainingHeader = none ∧
      (canActivate meta opt ip xff s).resetHeader = none := by
  have hmsg : getErrorMessage meta opt =
      (meta.handlerOptions.bind (·.errorMessage)).getD
        ((opt.errorMessage).getD "Too Many Requests") := by
    cases h1 : meta.handlerOptions.bind (·.errorMessage) <;>
      cases h2 : opt.errorMessage <;> simp [getErrorMessage, h1, h2]
  cases hca : guardCountAll meta opt
  · rw [canActivate_successOnly_eq meta opt ip xff s hskip hca] at hrej ⊢
    dsimp only at hrej ⊢
    rw [apply_ite GuardOutcome.allowed] at hrej
    dsimp only at hrej
    split_ifs at hrej with h
    rw [if_pos h]
    exact ⟨rfl, rfl, rfl, by rw [← hmsg], rfl, rfl, rfl⟩
  · rw [canActivate_countAll_eq meta opt ip xff s hskip hca] at hrej ⊢
    dsimp only at hrej ⊢
    rw [apply_ite GuardOutcome.allowed] at hrej
    dsimp only at hrej
    split_ifs at hrej with h
    rw [if_pos h]
    exact ⟨rfl, rfl, rfl, by rw [← hmsg], rfl, rfl, rfl⟩

/-- Store whose every key holds counter 5 with 7 seconds of TTL left. -/
def fullStore : Store := ⟨fun _ => some 5, fun _ => (7 : Int)⟩

/-- Witness for C6: success-only mode with counter 5 and limit 2; the
request is rejected with Retry-After 7 and the fallback message. -/
theorem reject_sets_only_retry_after_witness :
    truthyFlag (getAllAndOverride demoMeta.handlerSkip demoMeta.classSkip) =
        false ∧
      (canActivate demoMeta demoOptionsSO none none fullStore).allowed =
        false ∧
      ((canActivate demoMeta demoOptionsSO none none
          fullStore).retryAfterHeader =
        some (fixedTtl demoMeta demoOptionsSO none none fullStore) ∧
        (canActivate demoMeta demoOptionsSO none none fullStore).errorStatus =
          some tooManyRequestsStatus ∧
        tooManyRequestsStatus = 429 ∧
        (canActivate demoMeta demoOptionsSO none none fullStore).errorMessage =
          some ((demoMeta.handlerOptions.bind (·.errorMessage)).getD
            ((demoOptionsSO.errorMessage).getD "Too Many Requests")) ∧
        (canActivate demoMeta demoOptionsSO none none fullStore).limitHeader =
          none ∧
        (canActivate demoMeta demoOptionsSO none none
            fullStore).remainingHeader = none ∧
        (canActivate demoMeta demoOptionsSO none none fullStore).resetHeader =
          none) :=
  ⟨rfl, by decide, reject_sets_only_retry_after demoMeta demoOptionsSO none
    none fullStore rfl (by decide)⟩

/-- C7: a route marked to bypass rate limiting is allowed unconditionally
with no store operation and no key binding, and — because no key is bound —
the Settlement Stage also performs no store operation; the store is
unchanged regardless of Policy. -/
theorem bypass_no_store_access (meta : RouteMeta) (opt : RateLimitOptions)
    (ip xff : Option String) (status : Nat) (s s2 : Store)
    (hskip :
      truthyFlag (getAllAndOverride meta.handlerSkip meta.classSkip) = true) :
    (canActivate meta opt ip xff s).allowed = true ∧
      (canActivate meta opt ip xff s).store = s ∧
      (canActivate meta opt ip xff s).ops = [] ∧
      (canActivate meta opt ip xff s).boundKey = none ∧
      interceptSettle meta opt (canActivate meta opt ip xff s).boundKey
        status s2 = ⟨s2, []⟩ := by
  rw [canActivate_skip meta opt ip xff s hskip]
  exact ⟨rfl, rfl, rfl, rfl, rfl⟩

/-- Route with a handler-level `@SkipRateLimit()` marker. -/
def skipMeta : RouteMeta :=
  ⟨"AppController", "getHello", some true, none, none, none⟩

/-- Witness for C7 on a skipped route with a successful response status. -/
theorem bypass_no_store_access_witness :
    truthyFlag (getAllAndOverride skipMeta.handlerSkip skipMeta.classSkip) =
        true ∧
      ((canActivate skipMeta demoOptionsCA none none emptyStore).allowed =
        true ∧
        (canActivate skipMeta demoOptionsCA none none emptyStore).store =
          emptyStore ∧
        (canActivate skipMeta demoOptionsCA none none emptyStore).ops = [] ∧
        (canActivate skipMeta demoOptionsCA none none emptyStore).boundKey =
          none ∧
        interceptSettle skipMeta demoOptionsCA
          (canActivate skipMeta demoOptionsCA none none emptyStore).boundKey
          200 fullStore = ⟨fullStore, []⟩) :=
  ⟨rfl, bypass_no_store_access skipMeta demoOptionsCA none none 200
    emptyStore fullStore rfl⟩

/-- Route whose handler metadata carries an explicit
`countAllRequests: false` override. -/
def mismatchMeta : RouteMeta :=
  ⟨"AppController", "getHello", none, none, some ⟨10, 2, none, some false⟩,
   none⟩

/-- Global options with `countAllRequests: true`. -/
def mismatchOpt : RateLimitOptions := ⟨10, 2, none, some true⟩

/-- C2 (refuted): with a per-route `countAllRequests: false` override and
global `countAllRequests: true`, the guard's `||` chain resolves the flag
to true while the interceptor's `??` chain resolves it to false, so the
guard counts the request during the decision and the interceptor increments
again on success — a single successful request leaves the counter at 2. -/
theorem countAll_resolution_mismatch :
    guardCountAll mismatchMeta mismatchOpt = true ∧
      interceptorCountAll mismatchMeta mismatchOpt = false ∧
      (interceptSettle mismatchMeta mismatchOpt
          (canActivate mismatchMeta mismatchOpt none none emptyStore).boundKey
          200
          (canActivate mismatchMeta mismatchOpt none none
            emptyStore).store).store.data
        (requestKey mismatchMeta none none) = some 2 := by
  refine ⟨rfl, rfl, ?_⟩
  decide

end RateLimitClaims

namespace RateLimitLib

/-- Successful settlement (success-only mode, truthy key, status below 400)
characterized in full. -/
lemma interceptSettle_success (meta : RouteMeta) (opt : RateLimitOptions)
    (key : String) (st : Nat) (s : Store)
    (hca : interceptorCountAll meta opt = false) (hkey : key ≠ "")
    (hst : st < 400) :
    interceptSettle meta opt (some key) st s =
      (let newCount := (s.data key).getD 0 + 1
       if newCount = 1 then
         ⟨(s.setVal key newCount).setTtl key (effectiveDuration meta opt),
          [StoreOp.incr key, StoreOp.expire key (effectiveDuration meta opt)]⟩
       else ⟨s.setVal key newCount, [StoreOp.incr key]⟩) := by
  simp only [interceptSettle]
  rw [if_pos ⟨hca, hkey⟩, if_pos hst]

/-- Failed settlement leaves the store untouched and issues no operation. -/
lemma interceptSettle_failure (meta : RouteMeta) (opt : RateLimitOptions)
    (key : String) (st : Nat) (s : Store) (hst : ¬ st < 400) :
    interceptSettle meta opt (some key) st s = ⟨s, []⟩ := by
  simp only [interceptSettle]
  by_cases h1 : interceptorCountAll meta opt = false ∧ key ≠ ""
  · rw [if_pos h1, if_neg hst]
  · rw [if_neg h1]

/-- Successful settlement increments the key's counter by one. -/
lemma interceptSettle_success_data (meta : RouteMeta)
    (opt : RateLimitOptions) (key : String) (st : Nat) (s : Store)
    (hca : interceptorCountAll meta opt = false) (hkey : key ≠ "")
    (hst : st < 400) :
    (interceptSettle meta opt (some key) st s).store.data key =
      some ((s.data key).getD 0 + 1) := by
  rw [interceptSettle_success meta opt key st s hca hkey hst]
  dsimp only
  split_ifs <;> simp [Store.setVal, Store.setTtl]

/-- Settling a status sequence adds exactly the number of sub-400 statuses
to the key's counter. -/
lemma settleMany_counts (meta : RouteMeta) (opt : RateLimitOptions)
    (key : String) (hca : interceptorCountAll meta opt = false)
    (hkey : key ≠ "") :
    ∀ (statuses : List Nat) (s : Store),
      ((settleMany meta opt (some key) statuses s).data key).getD 0 =
        (s.data key).getD 0 + statuses.countP (fun st => st < 400) := by
  intro statuses
  induction statuses with
  | nil => intro s; simp [settleMany]
  | cons st rest ih =>
    intro s
    rw [settleMany]
    by_cases h : st < 400
    · rw [ih, interceptSettle_success_data meta opt key st s hca hkey h]
      simp [List.countP_cons, h]
      omega
    · rw [interceptSettle_failure meta opt key st s h, ih]
      simp [List.countP_cons, h]

end RateLimitLib

namespace RateLimitClaims

open RateLimitLib

/-- C3: in success-only mode the Settlement Stage increments the counter
precisely when a Limiting Key was bound and the outcome status is below
400; a failing request leaves the store untouched, and after settling any
status sequence the counter equals the number of successful requests, not
the number of attempts. -/
theorem settlement_counts_successes (meta : RouteMeta)
    (opt : RateLimitOptions) (key : String) (st : Nat) (s : Store)
    (statuses : List Nat)
    (hca : interceptorCountAll meta opt = false) (hkey : key ≠ "") :
    (st < 400 →
      (interceptSettle meta opt (some key) st s).store.data key =
        some ((s.data key).getD 0 + 1)) ∧
      (¬ st < 400 → interceptSettle meta opt (some key) st s = ⟨s, []⟩) ∧
      (∀ s2 : Store, interceptSettle meta opt none st s2 = ⟨s2, []⟩) ∧
      (s.data key = none →
        ((settleMany meta opt (some key) statuses s).data key).getD 0 =
          statuses.countP (fun x => x < 400)) := by
  refine ⟨fun h => interceptSettle_success_data meta opt key st s hca hkey h,
    fun h => interceptSettle_failure meta opt key st s h,
    fun s2 => rfl, fun hnone => ?_⟩
  rw [settleMany_counts meta opt key hca hkey statuses s, hnone]
  simp

/-- Witness for C3: statuses 200, 500, 201, 404 settle to a counter of 2. -/
theorem settlement_counts_successes_witness :
    interceptorCountAll demoMeta demoOptionsSO = false ∧
      ("k" : String) ≠ "" ∧
      ((200 < 400 →
        (interceptSettle demoMeta demoOptionsSO (some "k") 200
            emptyStore).store.data "k" =
          some ((emptyStore.data "k").getD 0 + 1)) ∧
        (¬ 200 < 400 →
          interceptSettle demoMeta demoOptionsSO (some "k") 200 emptyStore =
            ⟨emptyStore, []⟩) ∧
        (∀ s2 : RateLimitLib.Store,
          interceptSettle demoMeta demoOptionsSO none 200 s2 = ⟨s2, []⟩) ∧
        (emptyStore.data "k" = none →
          ((settleMany demoMeta demoOptionsSO (some "k")
              [200, 500, 201, 404] emptyStore).data "k").getD 0 =
            ([200, 500, 201, 404].countP (fun x => x < 400)))) :=
  ⟨rfl, by decide, settlement_counts_successes demoMeta demoOptionsSO "k" 200
    emptyStore [200, 500, 201, 404] rfl (by decide)⟩

/-- C4: in both stages the increment is followed by an expire to the
effective window seconds exactly when the post-increment value is 1 — the
operation lists contain the expire call (with the effective duration) if
and only if the counter was just created, and in that case the post-state
TTL equals the effective duration. -/
theorem ttl_set_exactly_once (meta : RouteMeta) (opt : RateLimitOptions)
    (ip xff : Option String) (s s2 : Store) (key : String) (st : Nat)
    (hskip :
      truthyFlag (getAllAndOverride meta.handlerSkip meta.classSkip) = false)
    (hkey : key ≠ "") :
    (guardCountAll meta opt = true →
      (canActivate meta opt ip xff s).ops =
          [StoreOp.ttl (requestKey meta ip xff),
            StoreOp.incr (requestKey meta ip xff)] ++
            (if (s.data (requestKey meta ip xff)).getD 0 + 1 = 1 then
              [StoreOp.expire (requestKey meta ip xff)
                (effectiveDuration meta opt)]
            else []) ∧
        ((s.data (requestKey meta ip xff)).getD 0 + 1 = 1 →
          (canActivate meta opt ip xff s).store.ttlOf
              (requestKey meta ip xff) =
            (effectiveDuration meta opt : Int))) ∧
      (interceptorCountAll meta opt = false → st < 400 →
        (interceptSettle meta opt (some key) st s2).ops =
            [StoreOp.incr key] ++
              (if (s2.data key).getD 0 + 1 = 1 then
                [StoreOp.expire key (effectiveDuration meta opt)]
              else []) ∧
          ((s2.data key).getD 0 + 1 = 1 →
            (interceptSettle meta opt (some key) st s2).store.ttlOf key =
              (effectiveDuration meta opt : Int))) := by
  constructor
  · intro hca
    rw [canActivate_countAll_eq meta opt ip xff s hskip hca]
    dsimp only
    constructor
    · rw [apply_ite GuardOutcome.ops]
      dsimp only
      rw [ite_self]
    · intro h1
      rw [apply_ite GuardOutcome.store]
      dsimp only
      rw [ite_self, if_pos h1]
      simp [Store.setVal, Store.setTtl]
  · intro hca hst
    rw [interceptSettle_success meta opt key st s2 hca hkey hst]
    dsimp only
    constructor
    · split_ifs <;> rfl
    · intro h1
      rw [if_pos h1]
      simp [Store.setVal, Store.setTtl]

/-- Witness for C4: count-all guard run and success-only settlement both
starting from an empty store, so the increment returns 1 and the expire to
10 seconds is issued. -/
theorem ttl_set_exactly_once_witness :
    truthyFlag (getAllAndOverride demoMeta.handlerSkip demoMeta.classSkip) =
        false ∧
      ("k" : String) ≠ "" ∧
      ((guardCountAll demoMeta demoOptionsCA = true →
        (canActivate demoMeta demoOptionsCA none none emptyStore).ops =
            [StoreOp.ttl (requestKey demoMeta none none),
              StoreOp.incr (requestKey demoMeta none none)] ++
              (if (emptyStore.data (requestKey demoMeta none none)).getD 0 +
                  1 = 1 then
                [StoreOp.expire (requestKey demoMeta none none)
                  (effectiveDuration demoMeta demoOptionsCA)]
              else []) ∧
          ((emptyStore.data (requestKey demoMeta none none)).getD 0 + 1 = 1 →
            (canActivate demoMeta demoOptionsCA none none
                emptyStore).store.ttlOf (requestKey demoMeta none none) =
              (effectiveDuration demoMeta demoOptionsCA : Int))) ∧
        (interceptorCountAll demoMeta demoOptionsCA = false → 200 < 400 →
          (interceptSettle demoMeta demoOptionsCA (some "k") 200
              emptyStore).ops =
              [StoreOp.incr "k"] ++
                (if (emptyStore.data "k").getD 0 + 1 = 1 then
                  [StoreOp.expire "k"
                    (effectiveDuration demoMeta demoOptionsCA)]
                else []) ∧
            ((emptyStore.data "k").getD 0 + 1 = 1 →
              (interceptSettle demoMeta demoOptionsCA (some "k") 200
                  emptyStore).store.ttlOf "k" =
                (effectiveDuration demoMeta demoOptionsCA : Int)))) :=
  ⟨rfl, by decide, ttl_set_exactly_once demoMeta demoOptionsCA none none
    emptyStore emptyStore "k" 200 rfl (by decide)⟩

end RateLimitClaims
